import Mathlib

/-!
Verification of the DeskAgent automation orchestrator against its design
specification.

The development shallowly embeds the Python sources:
  app.py                 (orchestration loop, cleanup, confirmation UI)
  llm_handler.py         (completion adapter: generate / judge / abstract)
  rag_handler.py         (knowledge-store adapter)
  build_rag_from_json.py (offline knowledge-base builder)

Text is modelled as a list of Unicode code points (List Nat).  External
effects (LLM calls, process launch, OCR, the error-log file) are supplied
as explicit environment data; each call site either receives a value or a
raised Python exception, modelled with Except PyErr.
-/

/-- Converts a Lean string literal to its list of code points; used to write
the Python string literals of the sources. -/
def str (s : String) : List Nat :=
  s.toList.map Char.toNat

/-- ASCII upper-casing of one code point, the relevant fragment of Python
str.upper for this code base. -/
def upperByte (n : Nat) : Nat :=
  if 97 ≤ n ∧ n ≤ 122 then n - 32 else n

/-- ASCII lower-casing of one code point, the relevant fragment of Python
str.lower. -/
def lowerByte (n : Nat) : Nat :=
  if 65 ≤ n ∧ n ≤ 90 then n + 32 else n

/-- Whitespace test on a code point (space, tab, newline, vertical tab,
form feed, carriage return), as stripped by Python str.strip. -/
def isSpaceByte (n : Nat) : Bool :=
  n == 32 || n == 9 || n == 10 || n == 11 || n == 12 || n == 13

/-- Python str.upper on a text value. -/
def pyUpper (s : List Nat) : List Nat :=
  s.map upperByte

/-- Python str.lower on a text value. -/
def pyLower (s : List Nat) : List Nat :=
  s.map lowerByte

/-- Python str.strip: removes leading and trailing whitespace. -/
def pyStrip (s : List Nat) : List Nat :=
  ((s.dropWhile isSpaceByte).reverse.dropWhile isSpaceByte).reverse

/-- Boolean test that the first list is a prefix of the second. -/
def isPrefixB : List Nat → List Nat → Bool
  | [], _ => true
  | _ :: _, [] => false
  | a :: as, b :: bs => a == b && isPrefixB as bs

/-- Python substring membership: containsSub pat hay models the Python
expression pat in hay on strings. -/
def containsSub (pat : List Nat) : List Nat → Bool
  | [] => pat.isEmpty
  | b :: hay => isPrefixB pat (b :: hay) || containsSub pat hay

theorem isPrefixB_iff (p h : List Nat) : isPrefixB p h = true ↔ p <+: h := by
  induction p generalizing h with
  | nil => simp [isPrefixB]
  | cons a as ih =>
    cases h with
    | nil => simp [isPrefixB]
    | cons b bs =>
      simp only [isPrefixB, Bool.and_eq_true, beq_iff_eq, ih,
        List.cons_prefix_cons]

theorem containsSub_iff (p h : List Nat) : containsSub p h = true ↔ p <:+: h := by
  induction h with
  | nil => simp [containsSub, List.isEmpty_iff]
  | cons b hs ih =>
    simp only [containsSub, Bool.or_eq_true, isPrefixB_iff, ih,
      List.infix_cons_iff]

theorem infix_dropWhile_iff (p h : List Nat) (hp : p ≠ [])
    (hw : ∀ c ∈ p, isSpaceByte c = false) :
    p <:+: h.dropWhile isSpaceByte ↔ p <:+: h := by
  induction h with
  | nil => simp
  | cons c hs ih =>
    by_cases hc : isSpaceByte c = true
    · rw [List.dropWhile_cons_of_pos hc, ih, List.infix_cons_iff]
      constructor
      · exact fun hi => Or.inr hi
      · rintro (hpre | hi)
        · cases p with
          | nil => exact absurd rfl hp
          | cons q qs =>
            rcases List.cons_prefix_cons.mp hpre with ⟨rfl, _⟩
            have := hw q (List.mem_cons_self q qs)
            rw [this] at hc
            exact absurd hc (by simp)
        · exact hi
    · rw [List.dropWhile_cons_of_neg hc]

theorem infix_pyStrip_iff (p h : List Nat) (hp : p ≠ [])
    (hw : ∀ c ∈ p, isSpaceByte c = false) :
    p <:+: pyStrip h ↔ p <:+: h := by
  have hpr : p.reverse ≠ [] := by simpa using hp
  have hwr : ∀ c ∈ p.reverse, isSpaceByte c = false := by
    intro c hc
    exact hw c (List.mem_reverse.mp hc)
  unfold pyStrip
  rw [show p = p.reverse.reverse from (List.reverse_reverse p).symm]
  rw [ List.reverse_infix]
  rw [infix_dropWhile_iff p.reverse _ hpr hwr]
  rw [ List.reverse_infix]
  rw [List.reverse_reverse]
  exact infix_dropWhile_iff p h hp hw

theorem isSpaceByte_upperByte (n : Nat) :
    isSpaceByte (upperByte n) = isSpaceByte n := by
  unfold upperByte isSpaceByte
  split
  · next hn =>
    obtain ⟨h1, h2⟩ := hn
    have e1 : (n - 32 == 32) = false := by simp; omega
    have e2 : (n - 32 == 9) = false := by simp; omega
    have e3 : (n - 32 == 10) = false := by simp; omega
    have e4 : (n - 32 == 11) = false := by simp; omega
    have e5 : (n - 32 == 12) = false := by simp; omega
    have e6 : (n - 32 == 13) = false := by simp; omega
    have f1 : (n == 32) = false := by simp; omega
    have f2 : (n == 9) = false := by simp; omega
    have f3 : (n == 10) = false := by simp; omega
    have f4 : (n == 11) = false := by simp; omega
    have f5 : (n == 12) = false := by simp; omega
    have f6 : (n == 13) = false := by simp; omega
    rw [e1, e2, e3, e4, e5, e6, f1, f2, f3, f4, f5, f6]
  · rfl

theorem pyUpper_pyStrip (s : List Nat) :
    pyUpper (pyStrip s) = pyStrip (pyUpper s) := by
  have hfun : (isSpaceByte ∘ upperByte) = isSpaceByte := by
    funext n
    exact isSpaceByte_upperByte n
  unfold pyStrip pyUpper
  rw [List.dropWhile_map, hfun, ← List.map_reverse, List.dropWhile_map, hfun,
    ← List.map_reverse]

theorem containsSub_pyStrip (p s : List Nat) (hp : p ≠ [])
    (hw : ∀ c ∈ p, isSpaceByte c = false) :
    containsSub p (pyStrip s) = containsSub p s := by
  rcases hb : containsSub p s with _ | _
  · rcases hb2 : containsSub p (pyStrip s) with _ | _
    · rfl
    · have := (infix_pyStrip_iff p s hp hw).mp ((containsSub_iff _ _).mp hb2)
      rw [(containsSub_iff p s).mpr this] at hb
      exact hb
  · exact (containsSub_iff _ _).mpr
      ((infix_pyStrip_iff p s hp hw).mpr ((containsSub_iff _ _).mp hb))

/-- Python exception values that the embedded code can raise or catch. -/
inductive PyErr where
  | typeError (msg : List Nat)
  | valueError (msg : List Nat)
  | indexError
  | fileNotFoundError
  | exception (msg : List Nat)
deriving DecidableEq

/-- The token the judge verdict is scanned for (llm_handler.py line 160). -/
def SUCCESS_TOKEN : List Nat := str "SUCCESS"

/-- Embeds LLMHandler.evaluate_operation (llm_handler.py lines 128-164):
the judging call either raises (then False is returned, lines 161-164) or
returns a raw response whose stripped upper-cased text is scanned for the
token SUCCESS (lines 157-160). -/
def evaluate_operation (judge : Except PyErr (List Nat)) : Bool :=
  match judge with
  | Except.error _ => false
  | Except.ok raw => containsSub SUCCESS_TOKEN (pyUpper (pyStrip raw))

/-- Embeds LLMHandler.abstract_user_prompt (llm_handler.py lines 166-197):
on adapter success the stripped response is returned (line 192), on any
exception the raw user prompt is returned unchanged (lines 195-197). -/
def abstract_user_prompt (resp : Except PyErr (List Nat)) (user_prompt : List Nat) : List Nat :=
  match resp with
  | Except.ok r => pyStrip r
  | Except.error _ => user_prompt

/-- Embeds the literal-match scan of app.py lines 229-233: the verdict is
true when the extracted literal occurs, by plain Python substring test, in
at least one detected text block of the after-image. -/
def literal_match_verdict (text_to_find : List Nat) (after_blocks : List (List Nat)) : Bool :=
  after_blocks.any (fun t => containsSub text_to_find t)

/-- Modelled from the spec wording of the Literal-Match Strategy: the
literal is compared case-insensitively and whitespace-trimmed against each
detected text block.  Used only to compare the spec sentence with the
source behaviour literal_match_verdict. -/
def literal_match_spec_ci (text_to_find : List Nat) (after_blocks : List (List Nat)) : Bool :=
  after_blocks.any (fun t => containsSub (pyUpper (pyStrip text_to_find)) (pyUpper (pyStrip t)))

/-- Expression nodes of the Python ast module that the structural
inspection of app.py lines 200-219 discriminates on.  Of a Call node the
source reads only whether node.args is non-empty with node.args[0] an
ast.Str, so a call carries strArg0 = some s exactly when its argument
list starts with the string literal s. -/
inductive AstExpr where
  | strLit (s : List Nat)
  | name (id : List Nat)
  | attribute (value : AstExpr) (attr : List Nat)
  | call (func : AstExpr) (strArg0 : Option (List Nat))
  | otherNode
deriving DecidableEq

/-- Generated code as handed to the verifier: its raw text plus the nodes
of ast.walk over its parse tree. -/
structure Code where
  text : List Nat
  walk : List AstExpr
deriving DecidableEq

/-- One step of the ast.walk scan of app.py lines 201-219: a Call node
whose func is the Attribute copy on the Name pyperclip, or typewrite on
pyautogui, with a literal string first argument, yields that literal. -/
def matchesTypePattern (node : AstExpr) : Option (List Nat) :=
  match node with
  | AstExpr.call (AstExpr.attribute (AstExpr.name obj) attr) strArg0 =>
    if (attr = str "copy" ∧ obj = str "pyperclip") ∨
       (attr = str "typewrite" ∧ obj = str "pyautogui") then
      strArg0
    else none
  | _ => none

/-- The structural inspection of app.py lines 199-222: walk the tree for
the first matching type-text or copy-to-clipboard pattern; when none is
found the code raises ValueError (line 222). -/
def parse_literal (code : Code) : Except PyErr (List Nat) :=
  match code.walk.findSome? matchesTypePattern with
  | some t => Except.ok t
  | none => Except.error (PyErr.valueError
      (str "Could not find text being typed in the generated code."))

/-- The typing-intent keyword scan of app.py line 191.  The third keyword
is written there as the six code points 194, 214, 8226, 194, 228, 245 (a
locale-specific keyword stored in a damaged encoding); it is embedded
verbatim. -/
def isTypingCommand (command : List Nat) : Bool :=
  [str "type", str "enter", [194, 214, 8226, 194, 228, 245]].any
    (fun k => containsSub k (pyLower command))

/-- A Python function signature as needed for keyword-argument binding:
its positional-or-keyword parameter names (self excluded), how many of the
trailing ones carry defaults, and whether starred catch-all parameters
exist. -/
structure PySignature where
  params : List (List Nat)
  numDefaults : Nat
  hasVarPositional : Bool
  hasVarKeyword : Bool
deriving DecidableEq, Repr

/-- Whether a keyword argument of the given name is accepted. -/
def acceptsKeyword (sig : PySignature) (kw : List Nat) : Bool :=
  sig.params.contains kw || sig.hasVarKeyword

/-- Python call binding (CPython semantics): raises TypeError on an
unexpected keyword argument, on positional overflow, on a duplicate
binding, or on an unbound required parameter. -/
def bindCall (sig : PySignature) (nPos : Nat) (kws : List (List Nat)) : Except PyErr Unit :=
  if ¬ (kws.all (fun k => acceptsKeyword sig k) = true) then
    Except.error (PyErr.typeError (str "got an unexpected keyword argument"))
  else if sig.params.length < nPos ∧ ¬ sig.hasVarPositional then
    Except.error (PyErr.typeError (str "too many positional arguments"))
  else if (sig.params.take nPos).any (fun p => kws.contains p) then
    Except.error (PyErr.typeError (str "got multiple values for argument"))
  else if ((sig.params.take (sig.params.length - sig.numDefaults)).drop nPos).any
      (fun p => ¬ (kws.contains p = true)) then
    Except.error (PyErr.typeError (str "missing a required argument"))
  else
    Except.ok ()

/-- The signature of LLMHandler.generate_automation_code
(llm_handler.py line 25): parameters after self are user_prompt,
screen_size, screenshot_path and rag_examples (the last with a default);
no starred parameters. -/
def generate_automation_code_sig : PySignature :=
  ⟨[str "user_prompt", str "screen_size", str "screenshot_path", str "rag_examples"],
    1, false, false⟩

/-- The call at app.py lines 142-148 passes four positional arguments and
the keyword argument cdp_url; its value is the binding outcome followed,
were binding to succeed, by the body result. -/
def generate_call_result (body : Code) : Except PyErr Code :=
  match bindCall generate_automation_code_sig 4 [str "cdp_url"] with
  | Except.error e => Except.error e
  | Except.ok _ => Except.ok body

/-- Observable steps of one attempt of the orchestration loop (app.py
lines 114-260), in source order. -/
inductive Event where
  | beforeCapture
  | ragQuery
  | genCall
  | execLaunch
  | crashCheck
  | afterCapture
  | literalVerify
  | judgeCall
deriving DecidableEq

deriving instance DecidableEq for Except

/-- Environment data consumed by one attempt: the outcome of the
code-generation call, of the execution launch, the error-log artifact
content when the file exists, the text blocks detected on the
after-image, and the raw judge response. -/
structure AttemptEnv where
  gen : Except PyErr Code
  launch : Except PyErr Unit
  error_log : Option (List Nat)
  after_ocr : List (List Nat)
  judge : Except PyErr (List Nat)
deriving DecidableEq

/-- How one attempt ends (app.py lines 114-260). -/
inductive AttemptOutcome where
  | genError (e : PyErr)
  | genEmpty
  | launchFail
  | crash
  | verifyError (e : PyErr)
  | verdictFailure
  | verdictSuccess (code : Code)
deriving DecidableEq

/-- The crash check of app.py lines 168-176: the error-log artifact
exists and its stripped content is non-empty. -/
def crashSignal (log : Option (List Nat)) : Bool :=
  match log with
  | some content => !(pyStrip content).isEmpty
  | none => false

/-- The typing-task validation block of app.py lines 195-248: structural
extraction of the literal, then the literal-match scan; the surrounding
try statement catches only IndexError (line 242), in which case the
model-judged fallback of lines 244-248 runs. -/
def typing_validation (code : Code) (after_ocr : List (List Nat))
    (judge : Except PyErr (List Nat)) : List Event × Except PyErr Bool :=
  match parse_literal code with
  | Except.ok t => ([Event.literalVerify], Except.ok (literal_match_verdict t after_ocr))
  | Except.error PyErr.indexError =>
    ([Event.literalVerify, Event.judgeCall], Except.ok (evaluate_operation judge))
  | Except.error e => ([Event.literalVerify], Except.error e)

/-- One iteration of the attempt loop of app.py lines 114-260, returning
the events reached and the attempt outcome.  Uncaught exceptions
(genError, verifyError) propagate to the session handler of lines
270-275. -/
def runAttempt (command : List Nat) (ae : AttemptEnv) : List Event × AttemptOutcome :=
  let pre := [Event.beforeCapture, Event.ragQuery, Event.genCall]
  match ae.gen with
  | Except.error e => (pre, AttemptOutcome.genError e)
  | Except.ok code =>
    if code.text = [] then (pre, AttemptOutcome.genEmpty)
    else
      match ae.launch with
      | Except.error _ => (pre ++ [Event.execLaunch], AttemptOutcome.launchFail)
      | Except.ok _ =>
        if crashSignal ae.error_log then
          (pre ++ [Event.execLaunch, Event.crashCheck], AttemptOutcome.crash)
        else
          let mid := pre ++ [Event.execLaunch, Event.crashCheck, Event.afterCapture]
          if isTypingCommand command then
            match typing_validation code ae.after_ocr ae.judge with
            | (vEvts, Except.ok true) => (mid ++ vEvts, AttemptOutcome.verdictSuccess code)
            | (vEvts, Except.ok false) => (mid ++ vEvts, AttemptOutcome.verdictFailure)
            | (vEvts, Except.error e) => (mid ++ vEvts, AttemptOutcome.verifyError e)
          else
            if evaluate_operation ae.judge then
              (mid ++ [Event.judgeCall], AttemptOutcome.verdictSuccess code)
            else
              (mid ++ [Event.judgeCall], AttemptOutcome.verdictFailure)

/-- How the attempt loop as a whole ends. -/
inductive LoopResult where
  | success (code : Code)
  | exhausted
  | aborted (e : PyErr)
deriving DecidableEq

/-- The bounded retry loop (app.py line 114): i is the index of the next
attempt, fuel the remaining retry budget.  A success verdict breaks out
of the loop; an uncaught exception aborts it; every other outcome
consumes one attempt and continues. -/
def runLoopAux (command : List Nat) (att : Nat → AttemptEnv) :
    Nat → Nat → List (List Event × AttemptOutcome) × LoopResult
  | _, 0 => ([], LoopResult.exhausted)
  | i, fuel + 1 =>
    match runAttempt command (att i) with
    | (evts, AttemptOutcome.verdictSuccess c) =>
      ([(evts, AttemptOutcome.verdictSuccess c)], LoopResult.success c)
    | (evts, AttemptOutcome.genError e) =>
      ([(evts, AttemptOutcome.genError e)], LoopResult.aborted e)
    | (evts, AttemptOutcome.verifyError e) =>
      ([(evts, AttemptOutcome.verifyError e)], LoopResult.aborted e)
    | (evts, AttemptOutcome.genEmpty) =>
      let r := runLoopAux command att (i + 1) fuel
      ((evts, AttemptOutcome.genEmpty) :: r.1, r.2)
    | (evts, AttemptOutcome.launchFail) =>
      let r := runLoopAux command att (i + 1) fuel
      ((evts, AttemptOutcome.launchFail) :: r.1, r.2)
    | (evts, AttemptOutcome.crash) =>
      let r := runLoopAux command att (i + 1) fuel
      ((evts, AttemptOutcome.crash) :: r.1, r.2)
    | (evts, AttemptOutcome.verdictFailure) =>
      let r := runLoopAux command att (i + 1) fuel
      ((evts, AttemptOutcome.verdictFailure) :: r.1, r.2)

/-- The pending-confirmation record: st.session_state.validation_pending
of app.py line 264 together with abstract_prompt_for_saving of line
111. -/
structure PendingState where
  prompt : List Nat
  abstract : List Nat
  code : List Nat
deriving DecidableEq

/-- Terminal state of one automation session. -/
inductive Outcome where
  | pending (p : PendingState)
  | failed
  | aborted (e : PyErr)
deriving DecidableEq

/-- Session-level environment: the abstraction-call result, the
per-attempt environments and the configured retry budget. -/
structure FlowEnv where
  abstract : Except PyErr (List Nat)
  attempts : Nat → AttemptEnv
  max_retries : Nat

/-- Result of run_automation_flow: the retrieval key, the per-attempt
trace, the terminal outcome, and whether cleanup_temp_files ran before
control returned (app.py lines 262-275). -/
structure FlowResult where
  abstractKey : List Nat
  trace : List (List Event × AttemptOutcome)
  outcome : Outcome
  cleanedUp : Bool

/-- Embeds run_automation_flow (app.py lines 90-275): abstract the
command (line 110), run the bounded attempt loop (lines 114-260), then
either record the pending-confirmation state (line 264), report failure
and clean up (lines 266-268), or let the session handler absorb an
uncaught exception and clean up (lines 270-275). -/
def run_automation_flow (command : List Nat) (env : FlowEnv) : FlowResult :=
  let key := abstract_user_prompt env.abstract command
  let loop := runLoopAux command env.attempts 0 env.max_retries
  match loop.2 with
  | LoopResult.success c => ⟨key, loop.1, Outcome.pending ⟨command, key, c.text⟩, false⟩
  | LoopResult.exhausted => ⟨key, loop.1, Outcome.failed, true⟩
  | LoopResult.aborted e => ⟨key, loop.1, Outcome.aborted e, true⟩

/-- A persisted knowledge-base entry (rag_handler.py lines 57-83,
app.py lines 312-316). -/
structure KnowledgeEntry where
  abstract_prompt : List Nat
  original_prompt : List Nat
  code : List Nat
deriving DecidableEq

/-- The two buttons of the validation section of app.py lines 303-331. -/
inductive Decision where
  | confirm
  | reject
deriving DecidableEq

/-- Embeds the validation section of app.py lines 303-331: on Confirm the
pending triple is inserted into the knowledge store (a failed insert is
caught and writes nothing, rag_handler.py lines 77-83 and app.py lines
319-321); on Reject nothing is written.  Both branches run
cleanup_temp_files and clear the pending state; the second component
records that cleanup ran. -/
def confirmation_gate (p : PendingState) (d : Decision) (insertOk : Bool) :
    List KnowledgeEntry × Bool :=
  match d with
  | Decision.confirm =>
    (if insertOk then [⟨p.abstract, p.prompt, p.code⟩] else [], true)
  | Decision.reject => ([], true)

/-- The knowledge-store writes of one whole session: run_automation_flow
itself contains no insert call (app.py lines 90-275), so writes can only
come from the validation section, which is reachable only when the flow
left a pending-confirmation record (app.py line 303). -/
def session_knowledge_writes (command : List Nat) (env : FlowEnv)
    (d : Option Decision) (insertOk : Bool) : List KnowledgeEntry :=
  match (run_automation_flow command env).outcome with
  | Outcome.pending p =>
    match d with
    | some dec => (confirmation_gate p dec insertOk).1
    | none => []
  | Outcome.failed => []
  | Outcome.aborted _ => []

/-- One entry of the JSON file consumed by build_rag_from_json.py: the
dict.get defaults of lines 37-38 fold a missing key into the empty
string, and abstract_prompt is kept optional (lines 45-50). -/
structure RagExample where
  original_prompt : List Nat
  code : List Nat
  abstract_prompt : Option (List Nat)
deriving DecidableEq

/-- Embeds build_rag_from_json (build_rag_from_json.py lines 35-63): each
example with non-empty original_prompt and code is written to the
knowledge store, using the provided abstract prompt or the abstractor
otherwise; insertOk tells whether the store insert persisted.  No
confirmation decision exists on this path. -/
def build_rag_from_json (examples : List RagExample)
    (abstractor : List Nat → List Nat) (insertOk : KnowledgeEntry → Bool) :
    List KnowledgeEntry :=
  examples.foldr
    (fun ex acc =>
      if ex.original_prompt = [] ∨ ex.code = [] then acc
      else
        let a := match ex.abstract_prompt with
          | some a => a
          | none => abstractor ex.original_prompt
        let entry : KnowledgeEntry := ⟨a, ex.original_prompt, ex.code⟩
        if insertOk entry then entry :: acc else acc)
    []

/-- os.path.exists against a filesystem modelled as the set of existing
paths. -/
def os_path_exists (fs : Finset (List Nat)) (p : List Nat) : Bool :=
  decide (p ∈ fs)

/-- os.remove: deletes the path, raising FileNotFoundError when it is
missing. -/
def os_remove (fs : Finset (List Nat)) (p : List Nat) :
    Except PyErr (Finset (List Nat)) :=
  if p ∈ fs then Except.ok (fs.erase p) else Except.error PyErr.fileNotFoundError

/-- The body of the loop of cleanup_temp_files before its except clause
(app.py lines 82-85): remove the file only if it exists. -/
def cleanup_one_attempt (fs : Finset (List Nat)) (p : List Nat) :
    Except PyErr (Finset (List Nat)) :=
  if os_path_exists fs p then os_remove fs p else Except.ok fs

/-- One iteration of cleanup_temp_files (app.py lines 81-87): any
exception of the body is caught and logged, leaving the filesystem as it
was. -/
def cleanup_one (fs : Finset (List Nat)) (p : List Nat) : Finset (List Nat) :=
  match cleanup_one_attempt fs p with
  | Except.ok fs2 => fs2
  | Except.error _ => fs

/-- Embeds cleanup_temp_files (app.py lines 78-87) acting on the
filesystem. -/
def cleanup_temp_files (fs : Finset (List Nat)) (files : List (List Nat)) :
    Finset (List Nat) :=
  files.foldl cleanup_one fs

theorem SUCCESS_TOKEN_nonempty : SUCCESS_TOKEN ≠ [] := by decide

theorem SUCCESS_TOKEN_no_space : ∀ c ∈ SUCCESS_TOKEN, isSpaceByte c = false := by
  decide

/-- Claim C1, counterexample: with literal Hello and a single detected
block hello, the Literal-Match verdict of the source is Failure although
the literal is a case-insensitive, whitespace-trimmed substring of the
block, so the claimed equivalence is false at this input. -/
theorem literal_match_case_counterexample :
    literal_match_verdict (str "Hello") [str "hello"] = false ∧
    literal_match_spec_ci (str "Hello") [str "hello"] = true := by
  constructor
  · decide
  · decide

/-- Claim C1, amended: in the Literal-Match verification strategy the
verdict is Success iff the literal text is an exact (case-sensitive,
untrimmed) substring of at least one detected text block of the
after-image, and Failure otherwise. -/
theorem literal_match_success_iff_exact_substring :
    ∀ (lit : List Nat) (blocks : List (List Nat)),
      literal_match_verdict lit blocks = true ↔ ∃ b ∈ blocks, lit <:+: b := by
  intro lit blocks
  unfold literal_match_verdict
  simp only [List.any_eq_true, containsSub_iff]

/-- Claim C4: the Model-Judged strategy returns Success iff the judge
adapter returned a raw response containing the token SUCCESS
case-insensitively (formalised as containment of SUCCESS in the
upper-cased response), and on an adapter exception it returns Failure,
never Success. -/
theorem modelJudged_success_iff_SUCCESS_token :
    (∀ judge : Except PyErr (List Nat),
      evaluate_operation judge = true ↔
        ∃ raw, judge = Except.ok raw ∧
          containsSub SUCCESS_TOKEN (pyUpper raw) = true) ∧
    (∀ e : PyErr, evaluate_operation (Except.error e) = false) := by
  constructor
  · intro judge
    cases judge with
    | error e => simp [evaluate_operation]
    | ok raw =>
      have hkey : containsSub SUCCESS_TOKEN (pyUpper (pyStrip raw)) =
          containsSub SUCCESS_TOKEN (pyUpper raw) := by
        rw [pyUpper_pyStrip]
        exact containsSub_pyStrip SUCCESS_TOKEN (pyUpper raw)
          SUCCESS_TOKEN_nonempty SUCCESS_TOKEN_no_space
      simp only [evaluate_operation, hkey, Except.ok.injEq]
      constructor
      · intro h
        exact ⟨raw, rfl, h⟩
      · rintro ⟨raw2, rfl, h⟩
        exact h
  · intro e
    rfl

theorem runLoopAux_length (cmd : List Nat) (att : Nat → AttemptEnv) :
    ∀ (fuel i : Nat), (runLoopAux cmd att i fuel).1.length ≤ fuel := by
  intro fuel
  induction fuel with
  | zero =>
    intro i
    simp [runLoopAux]
  | succ k ih =>
    intro i
    rcases h : runAttempt cmd (att i) with ⟨evts, out⟩
    cases out with
    | genError e => simp [runLoopAux, h]
    | verifyError e => simp [runLoopAux, h]
    | verdictSuccess c => simp [runLoopAux, h]
    | genEmpty =>
      simp only [runLoopAux, h, List.length_cons]
      exact Nat.succ_le_succ (ih (i + 1))
    | launchFail =>
      simp only [runLoopAux, h, List.length_cons]
      exact Nat.succ_le_succ (ih (i + 1))
    | crash =>
      simp only [runLoopAux, h, List.length_cons]
      exact Nat.succ_le_succ (ih (i + 1))
    | verdictFailure =>
      simp only [runLoopAux, h, List.length_cons]
      exact Nat.succ_le_succ (ih (i + 1))

theorem runLoopAux_success_mem (cmd : List Nat) (att : Nat → AttemptEnv) :
    ∀ (fuel i : Nat) (evts : List Event) (c : Code),
      (evts, AttemptOutcome.verdictSuccess c) ∈ (runLoopAux cmd att i fuel).1 →
      (runLoopAux cmd att i fuel).2 = LoopResult.success c ∧
      ∃ pre, (runLoopAux cmd att i fuel).1 =
        pre ++ [(evts, AttemptOutcome.verdictSuccess c)] := by
  intro fuel
  induction fuel with
  | zero =>
    intro i evts c hmem
    simp [runLoopAux] at hmem
  | succ k ih =>
    intro i evts c hmem
    rcases h : runAttempt cmd (att i) with ⟨evts0, out0⟩
    cases out0 with
    | verdictSuccess c0 =>
      simp only [runLoopAux, h, List.mem_singleton, Prod.mk.injEq,
        AttemptOutcome.verdictSuccess.injEq] at hmem
      obtain ⟨rfl, rfl⟩ := hmem
      constructor
      · simp [runLoopAux, h]
      · exact ⟨[], by simp [runLoopAux, h]⟩
    | genError e =>
      simp only [runLoopAux, h, List.mem_singleton, Prod.mk.injEq] at hmem
      exact absurd hmem.2 (by simp)
    | verifyError e =>
      simp only [runLoopAux, h, List.mem_singleton, Prod.mk.injEq] at hmem
      exact absurd hmem.2 (by simp)
    | genEmpty =>
      simp only [runLoopAux, h, List.mem_cons, Prod.mk.injEq] at hmem
      rcases hmem with ⟨_, hbad⟩ | htail
      · exact absurd hbad (by simp)
      · obtain ⟨hres, pre, hpre⟩ := ih (i + 1) evts c htail
        refine ⟨by simpa [runLoopAux, h] using hres,
          (evts0, AttemptOutcome.genEmpty) :: pre, ?_⟩
        simp [runLoopAux, h, hpre]
    | launchFail =>
      simp only [runLoopAux, h, List.mem_cons, Prod.mk.injEq] at hmem
      rcases hmem with ⟨_, hbad⟩ | htail
      · exact absurd hbad (by simp)
      · obtain ⟨hres, pre, hpre⟩ := ih (i + 1) evts c htail
        refine ⟨by simpa [runLoopAux, h] using hres,
          (evts0, AttemptOutcome.launchFail) :: pre, ?_⟩
        simp [runLoopAux, h, hpre]
    | crash =>
      simp only [runLoopAux, h, List.mem_cons, Prod.mk.injEq] at hmem
      rcases hmem with ⟨_, hbad⟩ | htail
      · exact absurd hbad (by simp)
      · obtain ⟨hres, pre, hpre⟩ := ih (i + 1) evts c htail
        refine ⟨by simpa [runLoopAux, h] using hres,
          (evts0, AttemptOutcome.crash) :: pre, ?_⟩
        simp [runLoopAux, h, hpre]
    | verdictFailure =>
      simp only [runLoopAux, h, List.mem_cons, Prod.mk.injEq] at hmem
      rcases hmem with ⟨_, hbad⟩ | htail
      · exact absurd hbad (by simp)
      · obtain ⟨hres, pre, hpre⟩ := ih (i + 1) evts c htail
        refine ⟨by simpa [runLoopAux, h] using hres,
          (evts0, AttemptOutcome.verdictFailure) :: pre, ?_⟩
        simp [runLoopAux, h, hpre]

theorem runLoopAux_aborted_mem (cmd : List Nat) (att : Nat → AttemptEnv) :
    ∀ (fuel i : Nat) (e : PyErr),
      (runLoopAux cmd att i fuel).2 = LoopResult.aborted e →
      ∃ evts out, (evts, out) ∈ (runLoopAux cmd att i fuel).1 ∧
        (out = AttemptOutcome.genError e ∨ out = AttemptOutcome.verifyError e) := by
  intro fuel
  induction fuel with
  | zero =>
    intro i e habort
    simp [runLoopAux] at habort
  | succ k ih =>
    intro i e habort
    rcases h : runAttempt cmd (att i) with ⟨evts0, out0⟩
    cases out0 with
    | verdictSuccess c0 => simp [runLoopAux, h] at habort
    | genError e0 =>
      simp only [runLoopAux, h, LoopResult.aborted.injEq] at habort
      subst habort
      exact ⟨evts0, AttemptOutcome.genError e0, by simp [runLoopAux, h], Or.inl rfl⟩
    | verifyError e0 =>
      simp only [runLoopAux, h, LoopResult.aborted.injEq] at habort
      subst habort
      exact ⟨evts0, AttemptOutcome.verifyError e0, by simp [runLoopAux, h], Or.inr rfl⟩
    | genEmpty =>
      simp only [runLoopAux, h] at habort
      obtain ⟨evts, out, hmem, hor⟩ := ih (i + 1) e habort
      exact ⟨evts, out, by simp [runLoopAux, h, hmem], hor⟩
    | launchFail =>
      simp only [runLoopAux, h] at habort
      obtain ⟨evts, out, hmem, hor⟩ := ih (i + 1) e habort
      exact ⟨evts, out, by simp [runLoopAux, h, hmem], hor⟩
    | crash =>
      simp only [runLoopAux, h] at habort
      obtain ⟨evts, out, hmem, hor⟩ := ih (i + 1) e habort
      exact ⟨evts, out, by simp [runLoopAux, h, hmem], hor⟩
    | verdictFailure =>
      simp only [runLoopAux, h] at habort
      obtain ⟨evts, out, hmem, hor⟩ := ih (i + 1) e habort
      exact ⟨evts, out, by simp [runLoopAux, h, hmem], hor⟩

theorem run_automation_flow_trace (cmd : List Nat) (env : FlowEnv) :
    (run_automation_flow cmd env).trace =
      (runLoopAux cmd env.attempts 0 env.max_retries).1 := by
  unfold run_automation_flow
  rcases hr : (runLoopAux cmd env.attempts 0 env.max_retries).2 with c | _ | e <;>
    simp [hr]

theorem run_automation_flow_key (cmd : List Nat) (env : FlowEnv) :
    (run_automation_flow cmd env).abstractKey =
      abstract_user_prompt env.abstract cmd := by
  unfold run_automation_flow
  rcases hr : (runLoopAux cmd env.attempts 0 env.max_retries).2 with c | _ | e <;>
    simp [hr]

theorem bindCall_gen_call :
    bindCall generate_automation_code_sig 4 [str "cdp_url"] =
      Except.error (PyErr.typeError (str "got an unexpected keyword argument")) := by
  decide

theorem generate_call_result_raises (body : Code) :
    generate_call_result body =
      Except.error (PyErr.typeError (str "got an unexpected keyword argument")) := by
  unfold generate_call_result
  rw [bindCall_gen_call]

/-- Claim C3: for every session on a non-empty instruction, the
code-generation call site of app.py lines 142-148 passes the keyword
argument cdp_url, which the signature of
LLMHandler.generate_automation_code does not accept, so the call raises
TypeError; the exception escapes the attempt loop to the session-level
handler: the trace stops at the first attempt before execution and
verification, the outcome is Aborted with that TypeError, and cleanup
runs. -/
theorem cdp_kwarg_typeError_aborts_session :
    ∀ (command : List Nat) (env : FlowEnv) (body : Nat → Code),
      command ≠ [] →
      1 ≤ env.max_retries →
      (∀ i, (env.attempts i).gen = generate_call_result (body i)) →
      run_automation_flow command env =
        ⟨abstract_user_prompt env.abstract command,
         [([Event.beforeCapture, Event.ragQuery, Event.genCall],
           AttemptOutcome.genError
             (PyErr.typeError (str "got an unexpected keyword argument")))],
         Outcome.aborted (PyErr.typeError (str "got an unexpected keyword argument")),
         true⟩ := by
  intro cmd env body _ hret hgen
  obtain ⟨k, hk⟩ : ∃ k, env.max_retries = k + 1 := ⟨env.max_retries - 1, by omega⟩
  have hA : runAttempt cmd (env.attempts 0) =
      ([Event.beforeCapture, Event.ragQuery, Event.genCall],
        AttemptOutcome.genError
          (PyErr.typeError (str "got an unexpected keyword argument"))) := by
    unfold runAttempt
    rw [hgen 0, generate_call_result_raises]
  have hL : runLoopAux cmd env.attempts 0 env.max_retries =
      ([([Event.beforeCapture, Event.ragQuery, Event.genCall],
         AttemptOutcome.genError
           (PyErr.typeError (str "got an unexpected keyword argument")))],
       LoopResult.aborted (PyErr.typeError (str "got an unexpected keyword argument"))) := by
    rw [hk]
    simp [runLoopAux, hA]
  unfold run_automation_flow
  rw [hL]

/-- Environment for exercising the code-generation TypeError concretely:
the generation body would be this code were binding to succeed. -/
def c3Body : Code := ⟨str "import pyautogui", []⟩

/-- Attempt environment whose generation call is the faulty cdp_url call. -/
def c3AttemptEnv : AttemptEnv :=
  ⟨generate_call_result c3Body, Except.ok (), none, [], Except.ok (str "SUCCESS")⟩

/-- Session environment for the concrete TypeError run. -/
def c3Env : FlowEnv :=
  ⟨Except.ok (str "click a button"), fun _ => c3AttemptEnv, 3⟩

theorem cdp_kwarg_typeError_aborts_session_witness :
    run_automation_flow (str "click the start button") c3Env =
      ⟨abstract_user_prompt c3Env.abstract (str "click the start button"),
       [([Event.beforeCapture, Event.ragQuery, Event.genCall],
         AttemptOutcome.genError
           (PyErr.typeError (str "got an unexpected keyword argument")))],
       Outcome.aborted (PyErr.typeError (str "got an unexpected keyword argument")),
       true⟩ :=
  cdp_kwarg_typeError_aborts_session (str "click the start button") c3Env
    (fun _ => c3Body) (by decide) (by decide) (fun _ => rfl)

/-- Claim C6: for every instruction and every configured retry budget of
at least one, the number of attempt records the orchestration loop
creates never exceeds max_retries. -/
theorem attempts_le_retry_budget :
    ∀ (command : List Nat) (env : FlowEnv),
      1 ≤ env.max_retries →
      (run_automation_flow command env).trace.length ≤ env.max_retries := by
  intro cmd env _
  rw [run_automation_flow_trace]
  exact runLoopAux_length cmd env.attempts env.max_retries 0

/-- Attempt environment that always fails generation with an empty
result, so a session consumes its whole retry budget. -/
def c6AttemptEnv : AttemptEnv :=
  ⟨Except.ok ⟨[], []⟩, Except.ok (), none, [], Except.error PyErr.indexError⟩

/-- Session environment with budget three for the retry-budget witness. -/
def c6Env : FlowEnv :=
  ⟨Except.ok (str "search the web for cats"), fun _ => c6AttemptEnv, 3⟩

theorem attempts_le_retry_budget_witness :
    (run_automation_flow (str "search the web for cats") c6Env).trace.length ≤
      c6Env.max_retries :=
  attempts_le_retry_budget (str "search the web for cats") c6Env (by decide)

/-- Claim C7: whenever an attempt ends with a Success verdict, that
attempt is the last record of the trace (the loop stops immediately, no
further attempts are created) and the session outcome is the
pending-confirmation state carrying the instruction, the abstract
instruction and the generated code. -/
theorem success_verdict_stops_loop :
    ∀ (command : List Nat) (env : FlowEnv) (evts : List Event) (c : Code),
      (evts, AttemptOutcome.verdictSuccess c) ∈ (run_automation_flow command env).trace →
      (∃ pre, (run_automation_flow command env).trace =
        pre ++ [(evts, AttemptOutcome.verdictSuccess c)]) ∧
      (run_automation_flow command env).outcome =
        Outcome.pending ⟨command, abstract_user_prompt env.abstract command, c.text⟩ := by
  intro cmd env evts c hmem
  rw [run_automation_flow_trace] at hmem
  obtain ⟨hres, pre, hpre⟩ :=
    runLoopAux_success_mem cmd env.attempts env.max_retries 0 evts c hmem
  constructor
  · refine ⟨pre, ?_⟩
    rw [run_automation_flow_trace]
    exact hpre
  · unfold run_automation_flow
    simp only [hres]

/-- Generated code of the success-witness run. -/
def c7Code : Code := ⟨str "import pyautogui", []⟩

/-- Attempt environment in which the model judge answers SUCCESS. -/
def c7AttemptEnv : AttemptEnv :=
  ⟨Except.ok c7Code, Except.ok (), none, [], Except.ok (str "SUCCESS")⟩

/-- Session environment for the success-stops-loop witness. -/
def c7Env : FlowEnv :=
  ⟨Except.ok (str "scroll a page"), fun _ => c7AttemptEnv, 3⟩

theorem success_verdict_stops_loop_witness :
    (∃ pre, (run_automation_flow (str "scroll the page down") c7Env).trace =
      pre ++ [([Event.beforeCapture, Event.ragQuery, Event.genCall, Event.execLaunch,
                Event.crashCheck, Event.afterCapture, Event.judgeCall],
               AttemptOutcome.verdictSuccess c7Code)]) ∧
    (run_automation_flow (str "scroll the page down") c7Env).outcome =
      Outcome.pending ⟨str "scroll the page down",
        abstract_user_prompt c7Env.abstract (str "scroll the page down"), c7Code.text⟩ :=
  success_verdict_stops_loop (str "scroll the page down") c7Env
    [Event.beforeCapture, Event.ragQuery, Event.genCall, Event.execLaunch,
     Event.crashCheck, Event.afterCapture, Event.judgeCall] c7Code (by decide)

/-- Claim C8: when the abstraction call of the Completion Adapter raises,
the orchestrator uses the raw instruction unchanged as the abstract
retrieval key and proceeds; any aborted outcome of the session can only
originate from an uncaught exception inside the attempt loop, never from
the abstraction step. -/
theorem abstraction_failure_uses_raw_key :
    ∀ (command : List Nat) (env : FlowEnv) (e : PyErr),
      env.abstract = Except.error e →
      (run_automation_flow command env).abstractKey = command ∧
      (∀ e2, (run_automation_flow command env).outcome = Outcome.aborted e2 →
        ∃ evts out, (evts, out) ∈ (run_automation_flow command env).trace ∧
          (out = AttemptOutcome.genError e2 ∨ out = AttemptOutcome.verifyError e2)) := by
  intro cmd env e habs
  constructor
  · rw [run_automation_flow_key, habs]
    rfl
  · intro e2 hout
    have hres : (runLoopAux cmd env.attempts 0 env.max_retries).2 =
        LoopResult.aborted e2 := by
      revert hout
      unfold run_automation_flow
      rcases hr : (runLoopAux cmd env.attempts 0 env.max_retries).2 with c | _ | e3 <;>
        simp [hr]
    obtain ⟨evts, out, hmem, hor⟩ :=
      runLoopAux_aborted_mem cmd env.attempts env.max_retries 0 e2 hres
    rw [run_automation_flow_trace]
    exact ⟨evts, out, hmem, hor⟩

/-- Attempt environment for the abstraction-failure witness: generation
returns empty code so the session simply exhausts its budget. -/
def c8AttemptEnv : AttemptEnv :=
  ⟨Except.ok ⟨[], []⟩, Except.ok (), none, [], Except.error PyErr.indexError⟩

/-- Session environment whose abstraction call raises a transport
error. -/
def c8Env : FlowEnv :=
  ⟨Except.error (PyErr.exception (str "connection refused")), fun _ => c8AttemptEnv, 2⟩

theorem abstraction_failure_uses_raw_key_witness :
    (run_automation_flow (str "open notepad") c8Env).abstractKey = str "open notepad" :=
  (abstraction_failure_uses_raw_key (str "open notepad") c8Env
    (PyErr.exception (str "connection refused")) rfl).1

/-- Claim C9: after launching the code and waiting the settle interval,
when the error-output artifact exists with non-empty stripped content,
the attempt ends as a crash without reaching the after-capture or either
verification step, and the loop continues with the next attempt,
consuming exactly one unit of the remaining budget. -/
theorem crash_skips_capture_and_verification :
    ∀ (command : List Nat) (ae : AttemptEnv) (code : Code) (content : List Nat),
      ae.gen = Except.ok code →
      code.text ≠ [] →
      ae.launch = Except.ok () →
      ae.error_log = some content →
      pyStrip content ≠ [] →
      runAttempt command ae =
        ([Event.beforeCapture, Event.ragQuery, Event.genCall, Event.execLaunch,
          Event.crashCheck], AttemptOutcome.crash) ∧
      Event.afterCapture ∉ (runAttempt command ae).1 ∧
      Event.literalVerify ∉ (runAttempt command ae).1 ∧
      Event.judgeCall ∉ (runAttempt command ae).1 ∧
      ∀ (att : Nat → AttemptEnv) (i k : Nat), att i = ae →
        runLoopAux command att i (k + 1) =
          (((runAttempt command ae).1, AttemptOutcome.crash) ::
              (runLoopAux command att (i + 1) k).1,
            (runLoopAux command att (i + 1) k).2) := by
  intro cmd ae code content h1 h2 h3 h4 h5
  have hcrash : crashSignal ae.error_log = true := by
    rw [h4]
    cases hps : pyStrip content with
    | nil => exact absurd hps h5
    | cons a l => simp [crashSignal, hps]
  have hA : runAttempt cmd ae =
      ([Event.beforeCapture, Event.ragQuery, Event.genCall, Event.execLaunch,
        Event.crashCheck], AttemptOutcome.crash) := by
    simp [runAttempt, h1, h2, h3, hcrash]
  refine ⟨hA, ?_, ?_, ?_, ?_⟩
  · rw [hA]
    decide
  · rw [hA]
    decide
  · rw [hA]
    decide
  · intro att i k hatt
    have hA2 : runAttempt cmd (att i) =
        ([Event.beforeCapture, Event.ragQuery, Event.genCall, Event.execLaunch,
          Event.crashCheck], AttemptOutcome.crash) := by
      rw [hatt, hA]
    rw [hA]
    simp [runLoopAux, hA2]

/-- Generated code of the crash-witness attempt. -/
def c9Code : Code := ⟨str "import pyautogui", []⟩

/-- Attempt environment whose error-log artifact holds a traceback. -/
def c9AttemptEnv : AttemptEnv :=
  ⟨Except.ok c9Code, Except.ok (), some (str "Traceback: NameError"), [],
    Except.ok (str "SUCCESS")⟩

theorem crash_skips_capture_and_verification_witness :
    runAttempt (str "open notepad") c9AttemptEnv =
      ([Event.beforeCapture, Event.ragQuery, Event.genCall, Event.execLaunch,
        Event.crashCheck], AttemptOutcome.crash) ∧
    runLoopAux (str "open notepad") (fun _ => c9AttemptEnv) 0 2 =
      (((runAttempt (str "open notepad") c9AttemptEnv).1, AttemptOutcome.crash) ::
          (runLoopAux (str "open notepad") (fun _ => c9AttemptEnv) 1 1).1,
        (runLoopAux (str "open notepad") (fun _ => c9AttemptEnv) 1 1).2) :=
  ⟨(crash_skips_capture_and_verification (str "open notepad") c9AttemptEnv c9Code
      (str "Traceback: NameError") rfl (by decide) rfl rfl (by decide)).1,
   (crash_skips_capture_and_verification (str "open notepad") c9AttemptEnv c9Code
      (str "Traceback: NameError") rfl (by decide) rfl rfl (by decide)).2.2.2.2
     (fun _ => c9AttemptEnv) 0 1 rfl⟩

/-- Generated code for a typing instruction in which the structural
inspection finds no literal: its only call node is pyautogui.click with
no string argument. -/
def c2Code : Code :=
  ⟨str "import pyautogui",
   [AstExpr.call (AstExpr.attribute (AstExpr.name (str "pyautogui")) (str "click")) none]⟩

/-- Attempt environment for the missing-literal typing run; its judge
would answer SUCCESS, so any model-judged fallback would succeed. -/
def c2AttemptEnv : AttemptEnv :=
  ⟨Except.ok c2Code, Except.ok (), none, [str "hello"], Except.ok (str "SUCCESS")⟩

/-- Session environment for the missing-literal typing run. -/
def c2Env : FlowEnv :=
  ⟨Except.ok (str "type text into an editor"), fun _ => c2AttemptEnv, 3⟩

/-- Claim C2 (code bug): on a typing-intent instruction whose generated
code contains no literal in a known type-text or copy-to-clipboard
pattern, app.py line 222 raises ValueError while the fallback handler at
line 242 catches only IndexError, so instead of failing over to the
Model-Judged strategy the exception escapes to the session handler: the
session aborts at the first attempt, the judge call never happens (no
judgeCall event in the trace) although the judge would have answered
SUCCESS. -/
theorem typing_without_literal_aborts_not_falls_back :
    run_automation_flow (str "type hello into the editor") c2Env =
      ⟨str "type text into an editor",
       [([Event.beforeCapture, Event.ragQuery, Event.genCall, Event.execLaunch,
          Event.crashCheck, Event.afterCapture, Event.literalVerify],
         AttemptOutcome.verifyError (PyErr.valueError
           (str "Could not find text being typed in the generated code.")))],
       Outcome.aborted (PyErr.valueError
         (str "Could not find text being typed in the generated code.")),
       true⟩ := by
  rfl

/-- One example of the JSON input of the offline builder. -/
def c5Example : RagExample :=
  ⟨str "open notepad", str "import subprocess", some (str "open an application")⟩

/-- Claim C5, counterexample: build_rag_from_json writes a KnowledgeEntry
for this example although no Confirm decision exists on that code path
(its inputs mention no Decision at all), so KnowledgeEntries are not
written only through the Confirmation Gate after an explicit Confirm. -/
theorem buildRag_writes_without_confirmation :
    build_rag_from_json [c5Example] (fun s => s) (fun _ => true) =
      [⟨str "open an application", str "open notepad", str "import subprocess"⟩] := by
  rfl

/-- Claim C5, amended: within an automation session, any KnowledgeEntry
write implies the session reached pending-confirmation, the user chose
Confirm and the store insert persisted, and the write is exactly the
pending triple; a session ending Failed or Aborted, or Rejected after
pending-confirmation, produces zero writes and no Success verdict is
promoted automatically.  (The offline build_rag_from_json utility is a
second writer that bypasses the gate.) -/
theorem session_writes_only_after_confirm :
    ∀ (command : List Nat) (env : FlowEnv) (d : Option Decision) (insertOk : Bool),
      session_knowledge_writes command env d insertOk ≠ [] →
      ∃ p, (run_automation_flow command env).outcome = Outcome.pending p ∧
        d = some Decision.confirm ∧ insertOk = true ∧
        session_knowledge_writes command env d insertOk =
          [⟨p.abstract, p.prompt, p.code⟩] := by
  intro cmd env d insertOk hne
  unfold session_knowledge_writes at hne ⊢
  rcases hout : (run_automation_flow cmd env).outcome with p | _ | e
  · rw [hout] at hne
    cases d with
    | none => simp at hne
    | some dec =>
      cases dec with
      | reject => simp [confirmation_gate] at hne
      | confirm =>
        cases insertOk with
        | false => simp [confirmation_gate] at hne
        | true => exact ⟨p, rfl, rfl, rfl, by simp [confirmation_gate]⟩
  · rw [hout] at hne
    simp at hne
  · rw [hout] at hne
    simp at hne

/-- Generated code of the confirmed-session witness. -/
def c5Code : Code := ⟨str "import pyautogui", []⟩

/-- Attempt environment whose judge answers SUCCESS. -/
def c5AttemptEnv : AttemptEnv :=
  ⟨Except.ok c5Code, Except.ok (), none, [], Except.ok (str "SUCCESS")⟩

/-- Session environment of the confirmed-session witness. -/
def c5FlowEnv : FlowEnv :=
  ⟨Except.ok (str "scroll a page"), fun _ => c5AttemptEnv, 3⟩

theorem session_writes_only_after_confirm_witness :
    session_knowledge_writes (str "scroll the page") c5FlowEnv
        (some Decision.confirm) true ≠ [] ∧
    ∃ p, (run_automation_flow (str "scroll the page") c5FlowEnv).outcome =
        Outcome.pending p ∧
      some Decision.confirm = some Decision.confirm ∧ true = true ∧
      session_knowledge_writes (str "scroll the page") c5FlowEnv
          (some Decision.confirm) true = [⟨p.abstract, p.prompt, p.code⟩] :=
  ⟨by decide,
   session_writes_only_after_confirm (str "scroll the page") c5FlowEnv
     (some Decision.confirm) true (by decide)⟩

theorem cleanup_one_eq_erase (fs : Finset (List Nat)) (p : List Nat) :
    cleanup_one fs p = fs.erase p := by
  unfold cleanup_one cleanup_one_attempt os_path_exists os_remove
  by_cases h : p ∈ fs
  · simp [h]
  · simp [h, Finset.erase_eq_of_not_mem h]

theorem mem_cleanup_temp_files (a : List Nat) :
    ∀ (files : List (List Nat)) (fs : Finset (List Nat)),
      a ∈ cleanup_temp_files fs files ↔ a ∈ fs ∧ a ∉ files := by
  intro files
  induction files with
  | nil =>
    intro fs
    simp [cleanup_temp_files]
  | cons p ps ih =>
    intro fs
    have hstep : cleanup_temp_files fs (p :: ps) =
        cleanup_temp_files (cleanup_one fs p) ps := by
      unfold cleanup_temp_files
      rw [List.foldl_cons]
    rw [hstep, ih, cleanup_one_eq_erase, Finset.mem_erase]
    simp only [List.mem_cons]
    tauto

/-- Claim C10: cleanup of a session's artifact set is idempotent — a
second run of cleanup_temp_files on the same path list leaves the
filesystem unchanged — and on that second run no path of the list even
reaches the raising os.remove call (the exists-guarded body succeeds for
every listed path, so cleanup tolerates already-missing files and raises
no error). -/
theorem cleanup_idempotent_and_tolerant :
    ∀ (fs : Finset (List Nat)) (files : List (List Nat)),
      cleanup_temp_files (cleanup_temp_files fs files) files =
        cleanup_temp_files fs files ∧
      ∀ p ∈ files, cleanup_one_attempt (cleanup_temp_files fs files) p =
        Except.ok (cleanup_temp_files fs files) := by
  intro fs files
  have hnot : ∀ p ∈ files, p ∉ cleanup_temp_files fs files := by
    intro p hp hmem
    exact ((mem_cleanup_temp_files p files fs).mp hmem).2 hp
  constructor
  · apply Finset.ext
    intro a
    rw [mem_cleanup_temp_files, mem_cleanup_temp_files]
    tauto
  · intro p hp
    have : os_path_exists (cleanup_temp_files fs files) p = false := by
      unfold os_path_exists
      simpa using hnot p hp
    unfold cleanup_one_attempt
    rw [this]
    simp

/-- A concrete filesystem for the cleanup witness: two screenshots and
the application log exist. -/
def c10fs : Finset (List Nat) :=
  {str "screenshots/before_1.png", str "screenshots/after_1.png", str "app.log"}

/-- The artifact list of a session; its error-log entry is already
missing from the filesystem. -/
def c10files : List (List Nat) :=
  [str "screenshots/before_1.png", str "screenshots/after_1.png",
   str "script_error.log"]

theorem cleanup_idempotent_and_tolerant_witness :
    cleanup_temp_files (cleanup_temp_files c10fs c10files) c10files =
      cleanup_temp_files c10fs c10files ∧
    cleanup_one_attempt (cleanup_temp_files c10fs c10files)
        (str "screenshots/before_1.png") =
      Except.ok (cleanup_temp_files c10fs c10files) :=
  ⟨(cleanup_idempotent_and_tolerant c10fs c10files).1,
   (cleanup_idempotent_and_tolerant c10fs c10files).2
     (str "screenshots/before_1.png") (by decide)⟩
